import Mathlib

/-!
Shallow embedding of the travel-reimbursement engine of
`src/improved_reimbursement.py` (`calculate_reimbursement`).

All real arithmetic of the Python source is modelled over `ℚ`.
Python's `int(x)` (truncation toward zero) is `pyint`, Python's `x % y`
on reals (sign of the divisor, here always a positive divisor) is `pymod`,
Python's `%` on integers is `Int.emod`, and Python 3's `round(x, 2)`
(round-half-to-even at two decimals) is `round2`.
-/

namespace ImprovedReimbursement

/-- Python `int(x)`: truncation toward zero. -/
def pyint (q : ℚ) : ℤ := if q < 0 then -⌊-q⌋ else ⌊q⌋

/-- Python `x % y` on reals: the remainder carrying the sign of the divisor. -/
def pymod (x y : ℚ) : ℚ := x - y * ⌊x / y⌋

/-- Round a rational to the nearest integer, ties to even (Python 3 `round`). -/
def round_half_even (q : ℚ) : ℤ :=
  if q - ⌊q⌋ < 1/2 then ⌊q⌋
  else if 1/2 < q - ⌊q⌋ then ⌊q⌋ + 1
  else if Int.emod ⌊q⌋ 2 = 0 then ⌊q⌋ else ⌊q⌋ + 1

/-- Python `round(x, 2)`. -/
def round2 (x : ℚ) : ℚ := (round_half_even (x * 100) : ℚ) / 100

/-- Lines 26-37: base accrual `d*115 + m*0.42` followed by the mileage-tier
correction (mutually exclusive bands above 800 and above 400 miles). -/
def base_mileage (d : ℤ) (m : ℚ) : ℚ :=
  if 800 < m then (d : ℚ) * 115 + m * 0.42 - (m - 800) * 0.15
  else if 400 < m then (d : ℚ) * 115 + m * 0.42 - (m - 400) * 0.05
  else (d : ℚ) * 115 + m * 0.42

/-- Lines 41-47: `multipliers.get(trip_duration_days, -0.08)`. -/
def receipt_multiplier (d : ℤ) : ℚ :=
  if d = 1 then 0.520 else if d = 2 then 0.500 else if d = 3 then 0.380
  else if d = 4 then 0.410 else if d = 5 then 0.395 else if d = 6 then 0.385
  else if d = 7 then 0.330 else if d = 8 then 0.225 else if d = 9 then 0.150
  else if d = 10 then 0.105 else if d = 11 then 0.090 else if d = 12 then 0.040
  else if d = 13 then -0.005 else if d = 14 then -0.055 else -0.08

/-- Lines 49-61: tiered receipt contribution (cap above 2000, diminishing
returns above 1000, linear otherwise). -/
def receipt_contribution (d : ℤ) (r : ℚ) : ℚ :=
  if 2000 < r then (2000 + (r - 2000) * 0.2) * receipt_multiplier d
  else if 1000 < r then 1000 * receipt_multiplier d + (r - 1000) * receipt_multiplier d * 0.6
  else r * receipt_multiplier d

/-- Lines 66-71: efficiency bonus for 200-300 miles per day, capped at 40. -/
def efficiency_bonus (d : ℤ) (m : ℚ) : ℚ :=
  if 0 < d then
    if 200 ≤ m / (d : ℚ) ∧ m / (d : ℚ) ≤ 300 then min ((d : ℚ) * 8) 40 else 0
  else 0

/-- Lines 73-75: the extra 20 added to `efficiency_bonus` for 5-day trips. -/
def five_day_bonus (d : ℤ) : ℚ := if d = 5 then 20 else 0

/-- Line 81: `(d*17 + int(m*13) + int(r*7)) % 100`. -/
def trip_hash (d : ℤ) (m r : ℚ) : ℤ :=
  Int.emod (d * 17 + pyint (m * 13) + pyint (r * 7)) 100

/-- Lines 77-83: quarter adjustment, only evaluated for `d ≥ 3`. -/
def quarter_adjustment (d : ℤ) (m r : ℚ) : ℚ :=
  if 3 ≤ d then (if trip_hash d m r < 15 then (d : ℚ) * 5 else 0) else 0

/-- Line 87: `cents = int((total_receipts_amount * 100) % 100)`. -/
def cents_of (r : ℚ) : ℤ := pyint (pymod (r * 100) 100)

/-- Lines 88-92: rounding-artifact bonus for receipts ending in 49 or 99 cents. -/
def rounding_bonus (r : ℚ) : ℚ :=
  if cents_of r = 49 then 8 else if cents_of r = 99 then 12 else 0

/-- Lines 95-99: the running total before the floor clamp. -/
def pre_floor_total (d : ℤ) (m r : ℚ) : ℚ :=
  base_mileage d m + receipt_contribution d r + efficiency_bonus d m
    + five_day_bonus d + quarter_adjustment d m r + rounding_bonus r

/-- Lines 95-107: floor clamp at `d*85` and final rounding to two decimals. -/
def calculate_reimbursement (d : ℤ) (m r : ℚ) : ℚ :=
  round2 (if pre_floor_total d m r < (d : ℚ) * 85 then (d : ℚ) * 85
          else pre_floor_total d m r)

/-- `pyint` agrees with the floor on non-negative arguments. -/
theorem pyint_of_nonneg (q : ℚ) (h : 0 ≤ q) : pyint q = ⌊q⌋ := by
  unfold pyint
  rw [if_neg (not_lt.mpr h)]

/-- Half-even rounding never drops below an integer lower bound. -/
theorem round_half_even_ge (n : ℤ) (q : ℚ) (h : (n : ℚ) ≤ q) :
    n ≤ round_half_even q := by
  have hf : n ≤ ⌊q⌋ := Int.le_floor.mpr h
  unfold round_half_even
  split_ifs <;> omega

/-- `round2` never drops below a bound that is an exact multiple of 1/100. -/
theorem round2_ge (n : ℤ) (q : ℚ) (h : (n : ℚ) ≤ q * 100) :
    (n : ℚ) / 100 ≤ round2 q := by
  have h1 : n ≤ round_half_even (q * 100) := round_half_even_ge n (q * 100) h
  have h2 : (n : ℚ) ≤ (round_half_even (q * 100) : ℚ) := by exact_mod_cast h1
  unfold round2
  linarith

/-- C1: for every input with `duration_days ≥ 1`, `miles_traveled ≥ 0` and
`total_receipts_amount ≥ 0`, the value returned by `calculate_reimbursement`
is at least `duration_days * 85`: the floor clamp replaces any lower running
total with the floor before final rounding. -/
theorem floor_clamp_lower_bound (d : ℤ) (m r : ℚ)
    (hd : 1 ≤ d) (hm : 0 ≤ m) (hr : 0 ≤ r) :
    (d : ℚ) * 85 ≤ calculate_reimbursement d m r := by
  unfold calculate_reimbursement
  set t := (if pre_floor_total d m r < (d : ℚ) * 85 then (d : ℚ) * 85
            else pre_floor_total d m r) with ht
  have hclamp : (d : ℚ) * 85 ≤ t := by
    rw [ht]
    split_ifs with h
    · exact le_refl _
    · exact not_lt.mp h
  have h1 : ((8500 * d : ℤ) : ℚ) ≤ t * 100 := by push_cast; linarith
  have h2 := round2_ge (8500 * d) t h1
  have h3 : ((8500 * d : ℤ) : ℚ) / 100 = (d : ℚ) * 85 := by push_cast; ring
  rw [h3] at h2
  exact h2

theorem floor_clamp_lower_bound_witness :
    ((1 : ℤ) : ℚ) * 85 ≤ calculate_reimbursement 1 0 0 :=
  floor_clamp_lower_bound 1 0 0 le_rfl le_rfl le_rfl

/-- C2: for inputs with `duration_days ≥ 1`, `miles_traveled ≥ 0`,
`total_receipts_amount ≥ 0`, `calculate_reimbursement` is total and
deterministic: it returns a value that is an exact multiple of 1/100
(rounded to two decimal places), and any two calls on identical inputs
return the identical result — the output is a pure function of the three
inputs. -/
theorem totality_determinism (d : ℤ) (m r : ℚ)
    (hd : 1 ≤ d) (hm : 0 ≤ m) (hr : 0 ≤ r) :
    (∃ n : ℤ, calculate_reimbursement d m r = (n : ℚ) / 100) ∧
    (∀ (d' : ℤ) (m' r' : ℚ), d' = d → m' = m → r' = r →
      calculate_reimbursement d' m' r' = calculate_reimbursement d m r) := by
  constructor
  · exact ⟨round_half_even ((if pre_floor_total d m r < (d : ℚ) * 85
      then (d : ℚ) * 85 else pre_floor_total d m r) * 100), rfl⟩
  · intro d' m' r' h1 h2 h3
    rw [h1, h2, h3]

theorem totality_determinism_witness :
    calculate_reimbursement 1 0 0 = calculate_reimbursement 1 0 0 :=
  (totality_determinism 1 0 0 le_rfl le_rfl le_rfl).2 1 0 0 rfl rfl rfl

/-- C10: for `duration_days = 0` and any non-negative miles and receipts,
the engine is still well-defined and non-negative: the `d > 0` guard zeroes
the efficiency bonus (no division by zero), the `d ≥ 3` guard skips the
quarter hash, and the floor clamp (floor `0 * 85 = 0`) lifts any negative
running total to zero. -/
theorem zero_duration_safe (m r : ℚ) (hm : 0 ≤ m) (hr : 0 ≤ r) :
    efficiency_bonus 0 m = 0 ∧ quarter_adjustment 0 m r = 0 ∧
      0 ≤ calculate_reimbursement 0 m r := by
  refine ⟨?_, ?_, ?_⟩
  · unfold efficiency_bonus
    norm_num
  · unfold quarter_adjustment
    norm_num
  · unfold calculate_reimbursement
    set t := (if pre_floor_total 0 m r < ((0 : ℤ) : ℚ) * 85 then ((0 : ℤ) : ℚ) * 85
              else pre_floor_total 0 m r) with ht
    have hclamp : (0 : ℚ) ≤ t := by
      rw [ht]
      split_ifs with h
      · norm_num
      · have := not_lt.mp h
        norm_num at this
        linarith
    have h1 : (((0 : ℤ)) : ℚ) ≤ t * 100 := by push_cast; linarith
    have h2 := round2_ge 0 t h1
    norm_num at h2
    exact h2

theorem zero_duration_safe_witness :
    efficiency_bonus 0 0 = 0 ∧ quarter_adjustment 0 0 0 = 0 ∧
      0 ≤ calculate_reimbursement 0 0 0 :=
  zero_duration_safe 0 0 le_rfl le_rfl

/-- C3: for every fixed duration whose receipt multiplier is positive, the
receipt contribution's marginal rate with respect to the receipts amount
strictly decreases at each tier breakpoint: it equals the multiplier below
the mid-cap (1000), `multiplier * 0.6` between the mid-cap and the upper cap
(2000), and `multiplier * 0.2` above the upper cap. -/
theorem receipt_tier_dampening (d : ℤ) (hpos : 0 < receipt_multiplier d) :
    (∀ r₁ r₂ : ℚ, 0 ≤ r₁ → r₁ ≤ r₂ → r₂ ≤ 1000 →
      receipt_contribution d r₂ - receipt_contribution d r₁
        = receipt_multiplier d * (r₂ - r₁)) ∧
    (∀ r₁ r₂ : ℚ, 1000 ≤ r₁ → r₁ ≤ r₂ → r₂ ≤ 2000 →
      receipt_contribution d r₂ - receipt_contribution d r₁
        = receipt_multiplier d * 0.6 * (r₂ - r₁)) ∧
    (∀ r₁ r₂ : ℚ, 2000 < r₁ → r₁ ≤ r₂ →
      receipt_contribution d r₂ - receipt_contribution d r₁
        = receipt_multiplier d * 0.2 * (r₂ - r₁)) ∧
    receipt_multiplier d * 0.6 < receipt_multiplier d ∧
    receipt_multiplier d * 0.2 < receipt_multiplier d * 0.6 := by
  refine ⟨?_, ?_, ?_, by linarith, by linarith⟩
  · intro r₁ r₂ h0 h12 h2
    unfold receipt_contribution
    split_ifs <;> first
      | ring1
      | linarith
  · intro r₁ r₂ h1 h12 h2
    unfold receipt_contribution
    split_ifs <;> first
      | ring1
      | linarith
      | (have e1 : r₁ = 1000 := by linarith
         subst e1
         ring1)
      | (have e1 : r₁ = 1000 := by linarith
         have e2 : r₂ = 1000 := by linarith
         subst e1
         subst e2
         ring1)
  · intro r₁ r₂ h1 h12
    unfold receipt_contribution
    split_ifs <;> first
      | ring1
      | linarith

theorem receipt_tier_dampening_witness :
    receipt_contribution 1 800 - receipt_contribution 1 300
      = receipt_multiplier 1 * (800 - 300) :=
  (receipt_tier_dampening 1 (by norm_num [receipt_multiplier])).1 300 800
    (by norm_num) (by norm_num) (by norm_num)

/-- C4: holding duration and receipts fixed, the base-plus-mileage subtotal
is non-decreasing in `miles_traveled`, and its marginal rate strictly
decreases across the two tier breakpoints: 0.42 per mile below 400 miles,
`0.42 - 0.05` between 400 and 800 miles, and `0.42 - 0.15` above 800. -/
theorem mileage_tier_monotone (d : ℤ) :
    (∀ m₁ m₂ : ℚ, 0 ≤ m₁ → m₁ ≤ m₂ → base_mileage d m₁ ≤ base_mileage d m₂) ∧
    (∀ m₁ m₂ : ℚ, 0 ≤ m₁ → m₁ ≤ m₂ → m₂ ≤ 400 →
      base_mileage d m₂ - base_mileage d m₁ = 0.42 * (m₂ - m₁)) ∧
    (∀ m₁ m₂ : ℚ, 400 ≤ m₁ → m₁ ≤ m₂ → m₂ ≤ 800 →
      base_mileage d m₂ - base_mileage d m₁ = (0.42 - 0.05) * (m₂ - m₁)) ∧
    (∀ m₁ m₂ : ℚ, 800 < m₁ → m₁ ≤ m₂ →
      base_mileage d m₂ - base_mileage d m₁ = (0.42 - 0.15) * (m₂ - m₁)) ∧
    ((0.42 - 0.05 : ℚ) < 0.42 ∧ (0.42 - 0.15 : ℚ) < 0.42 - 0.05) := by
  refine ⟨?_, ?_, ?_, ?_, by norm_num, by norm_num⟩
  · intro m₁ m₂ h0 h12
    unfold base_mileage
    split_ifs <;> linarith
  · intro m₁ m₂ h0 h12 h2
    unfold base_mileage
    split_ifs <;> first
      | ring1
      | linarith
  · intro m₁ m₂ h1 h12 h2
    unfold base_mileage
    split_ifs <;> first
      | ring1
      | linarith
  · intro m₁ m₂ h1 h12
    unfold base_mileage
    split_ifs <;> first
      | ring1
      | linarith

theorem mileage_tier_monotone_witness :
    base_mileage 2 500 - base_mileage 2 450 = (0.42 - 0.05) * (500 - 450) :=
  (mileage_tier_monotone 2).2.2.1 450 500 (by norm_num) (by norm_num) (by norm_num)

/-- C5: for `duration_days ≥ 1`, the efficiency bonus is zero whenever
`miles_traveled / duration_days` falls outside the inclusive range
`[200, 300]`, and inside the range it equals `min (duration_days * 8) 40`,
hence never exceeds the ceiling of 40. -/
theorem efficiency_bonus_spec (d : ℤ) (m : ℚ) (hd : 1 ≤ d) :
    (¬ (200 ≤ m / (d : ℚ) ∧ m / (d : ℚ) ≤ 300) → efficiency_bonus d m = 0) ∧
    ((200 ≤ m / (d : ℚ) ∧ m / (d : ℚ) ≤ 300) →
      efficiency_bonus d m = min ((d : ℚ) * 8) 40 ∧ efficiency_bonus d m ≤ 40) := by
  have hd0 : 0 < d := hd
  constructor
  · intro h
    unfold efficiency_bonus
    rw [if_pos hd0, if_neg h]
  · intro h
    unfold efficiency_bonus
    rw [if_pos hd0, if_pos h]
    exact ⟨rfl, min_le_right _ _⟩

theorem efficiency_bonus_spec_witness :
    efficiency_bonus 1 250 = min (((1 : ℤ) : ℚ) * 8) 40 ∧
      efficiency_bonus 1 250 ≤ 40 :=
  (efficiency_bonus_spec 1 250 le_rfl).2 (by norm_num)

/-- C6: the quarter adjustment is zero for `duration_days < 3`; for
`duration_days ≥ 3` it adds `duration_days * 5` exactly when
`(d*17 + ⌊m*13⌋ + ⌊r*7⌋) mod 100` is below the threshold 15, and zero
otherwise; the decision is a function of the inputs alone. -/
theorem quarter_adjustment_spec (d : ℤ) (m r : ℚ) (hm : 0 ≤ m) (hr : 0 ≤ r) :
    (d < 3 → quarter_adjustment d m r = 0) ∧
    (3 ≤ d →
      (Int.emod (d * 17 + ⌊m * 13⌋ + ⌊r * 7⌋) 100 < 15 →
        quarter_adjustment d m r = (d : ℚ) * 5) ∧
      (15 ≤ Int.emod (d * 17 + ⌊m * 13⌋ + ⌊r * 7⌋) 100 →
        quarter_adjustment d m r = 0)) := by
  have hhash : trip_hash d m r = Int.emod (d * 17 + ⌊m * 13⌋ + ⌊r * 7⌋) 100 := by
    unfold trip_hash
    rw [pyint_of_nonneg (m * 13) (by nlinarith), pyint_of_nonneg (r * 7) (by nlinarith)]
  refine ⟨?_, ?_⟩
  · intro h
    unfold quarter_adjustment
    rw [if_neg (by omega)]
  · intro h3
    constructor
    · intro hlt
      unfold quarter_adjustment
      rw [if_pos h3, if_pos (by rw [hhash]; exact hlt)]
    · intro hge
      unfold quarter_adjustment
      rw [if_pos h3, if_neg (by rw [hhash]; omega)]

theorem quarter_adjustment_spec_witness :
    quarter_adjustment 3 0 7 = ((3 : ℤ) : ℚ) * 5 :=
  (((quarter_adjustment_spec 3 0 7 le_rfl (by norm_num)).2 le_rfl).1 (by norm_num))

/-- The cents value the code extracts, `int((r * 100) % 100)`, equals the
spec's formula `⌊r * 100⌋ mod 100`. -/
theorem cents_of_eq_floor_emod (r : ℚ) :
    cents_of r = Int.emod ⌊r * 100⌋ 100 := by
  have hdiv : r * 100 / 100 = r := by
    field_simp
  unfold cents_of pymod
  rw [hdiv]
  have hfl : (⌊r⌋ : ℚ) ≤ r := Int.floor_le r
  have hfu : r < ⌊r⌋ + 1 := Int.lt_floor_add_one r
  have h0 : (0 : ℚ) ≤ r * 100 - 100 * (⌊r⌋ : ℚ) := by linarith
  rw [pyint_of_nonneg _ h0]
  have hcast : r * 100 - 100 * (⌊r⌋ : ℚ) = r * 100 - ((100 * ⌊r⌋ : ℤ) : ℚ) := by
    push_cast
    ring
  rw [hcast, Int.floor_sub_int]
  have hle : 100 * ⌊r⌋ ≤ ⌊r * 100⌋ := Int.le_floor.mpr (by push_cast; linarith)
  have hlt : ⌊r * 100⌋ < 100 * ⌊r⌋ + 100 := Int.floor_lt.mpr (by push_cast; linarith)
  have hmod : Int.emod ⌊r * 100⌋ 100 = ⌊r * 100⌋ % 100 := rfl
  rw [hmod]
  omega

/-- C7: the rounding-artifact bonus equals 8 when `⌊amount * 100⌋ mod 100`
is 49, equals 12 when it is 99, and equals 0 for every other cent value. -/
theorem rounding_bonus_spec (r : ℚ) (hr : 0 ≤ r) :
    (Int.emod ⌊r * 100⌋ 100 = 49 → rounding_bonus r = 8) ∧
    (Int.emod ⌊r * 100⌋ 100 = 99 → rounding_bonus r = 12) ∧
    (Int.emod ⌊r * 100⌋ 100 ≠ 49 → Int.emod ⌊r * 100⌋ 100 ≠ 99 →
      rounding_bonus r = 0) := by
  have hc := cents_of_eq_floor_emod r
  unfold rounding_bonus
  rw [hc]
  refine ⟨?_, ?_, ?_⟩
  · intro h
    rw [if_pos h]
  · intro h
    rw [if_neg (by omega), if_pos h]
  · intro h1 h2
    rw [if_neg h1, if_neg h2]

theorem rounding_bonus_spec_witness :
    rounding_bonus (49 / 100) = 8 :=
  (rounding_bonus_spec (49 / 100) (by norm_num)).1 (by norm_num)

/-- C8: at `(duration=1, miles=0, receipts=0)` the result equals the one-day
base accrual `1 * 115 = 115.00`, with the mileage correction, receipt
contribution, all three bonuses and the floor clamp each contributing
nothing (the floor `1 * 85` does not trigger). -/
theorem scenario_one_day :
    calculate_reimbursement 1 0 0 = 115 ∧
    base_mileage 1 0 = ((1 : ℤ) : ℚ) * 115 ∧
    receipt_contribution 1 0 = 0 ∧
    efficiency_bonus 1 0 = 0 ∧
    five_day_bonus 1 = 0 ∧
    quarter_adjustment 1 0 0 = 0 ∧
    rounding_bonus 0 = 0 ∧
    ¬ pre_floor_total 1 0 0 < ((1 : ℤ) : ℚ) * 85 := by
  norm_num [calculate_reimbursement, pre_floor_total, base_mileage,
    receipt_contribution, receipt_multiplier, efficiency_bonus, five_day_bonus,
    quarter_adjustment, trip_hash, pyint, pymod, cents_of, rounding_bonus,
    round2, round_half_even]

/-- C9: the receipt contribution is discontinuous at the upper cap: at
exactly 2000 the mid-tier branch yields `1600 * multiplier`, while above
2000 the cap branch yields `(2000 + (r - 2000) * 0.2) * multiplier`; the
multipliers for durations 13 and 14 and the default multiplier (any
duration outside 1..14) are negative, and for any duration with a negative
multiplier moving one cent across 2000 strictly decreases the contribution,
so the pre-floor total is not monotone in receipts. -/
theorem upper_cap_discontinuity :
    (∀ d : ℤ, receipt_contribution d 2000 = 1600 * receipt_multiplier d) ∧
    (∀ (d : ℤ) (r : ℚ), 2000 < r →
      receipt_contribution d r = (2000 + (r - 2000) * 0.2) * receipt_multiplier d) ∧
    receipt_multiplier 13 < 0 ∧
    receipt_multiplier 14 < 0 ∧
    (∀ d : ℤ, d < 1 ∨ 14 < d → receipt_multiplier d = -0.08) ∧
    (∀ d : ℤ, receipt_multiplier d < 0 →
      receipt_contribution d (2000 + 1 / 100) < receipt_contribution d 2000) ∧
    pre_floor_total 13 0 (2000 + 1 / 100) < pre_floor_total 13 0 2000 := by
  have hmid : ∀ d : ℤ, receipt_contribution d 2000 = 1600 * receipt_multiplier d := by
    intro d
    unfold receipt_contribution
    rw [if_neg (by norm_num), if_pos (by norm_num)]
    ring
  have hcap : ∀ (d : ℤ) (r : ℚ), 2000 < r →
      receipt_contribution d r = (2000 + (r - 2000) * 0.2) * receipt_multiplier d := by
    intro d r h
    unfold receipt_contribution
    rw [if_pos h]
  have hjump : ∀ d : ℤ, receipt_multiplier d < 0 →
      receipt_contribution d (2000 + 1 / 100) < receipt_contribution d 2000 := by
    intro d hneg
    rw [hmid d, hcap d (2000 + 1 / 100) (by norm_num)]
    nlinarith
  refine ⟨hmid, hcap, by norm_num [receipt_multiplier], by norm_num [receipt_multiplier],
    ?_, hjump, ?_⟩
  · intro d hd
    unfold receipt_multiplier
    rw [if_neg (by omega : ¬ d = 1), if_neg (by omega : ¬ d = 2),
      if_neg (by omega : ¬ d = 3), if_neg (by omega : ¬ d = 4),
      if_neg (by omega : ¬ d = 5), if_neg (by omega : ¬ d = 6),
      if_neg (by omega : ¬ d = 7), if_neg (by omega : ¬ d = 8),
      if_neg (by omega : ¬ d = 9), if_neg (by omega : ¬ d = 10),
      if_neg (by omega : ¬ d = 11), if_neg (by omega : ¬ d = 12),
      if_neg (by omega : ¬ d = 13), if_neg (by omega : ¬ d = 14)]
  · have e2 : efficiency_bonus 13 0 = 0 := by
      norm_num [efficiency_bonus]
    have e3 : five_day_bonus 13 = 0 := by
      norm_num [five_day_bonus]
    have e4 : quarter_adjustment 13 0 2000 = 0 := by
      norm_num [quarter_adjustment, trip_hash, pyint]
    have e5 : quarter_adjustment 13 0 (2000 + 1 / 100) = 0 := by
      norm_num [quarter_adjustment, trip_hash, pyint]
    have e6 : rounding_bonus 2000 = 0 := by
      norm_num [rounding_bonus, cents_of, pyint, pymod]
    have e7 : rounding_bonus (2000 + 1 / 100) = 0 := by
      norm_num [rounding_bonus, cents_of, pyint, pymod]
    unfold pre_floor_total
    rw [hmid 13, hcap 13 (2000 + 1 / 100) (by norm_num), e2, e3, e4, e5, e6, e7]
    norm_num [receipt_multiplier]
    linarith

theorem upper_cap_discontinuity_witness :
    receipt_contribution 5 2500 = (2000 + (2500 - 2000) * 0.2) * receipt_multiplier 5 :=
  upper_cap_discontinuity.2.1 5 2500 (by norm_num)

end ImprovedReimbursement
